import Mathlib

/-!
Verification of the feature normalization, validation, and
prediction/explanation pipeline of `src/web.py` (a clinical
decision-support front end).  Python floats are modelled as exact
rationals (`ℚ`); Python strings as Lean `String`/`List Char`.
-/

set_option autoImplicit false

namespace Web

/-! ### Input Parser (`_to_float`, `_num_pattern` in web.py)

The source regex is `^[+-]?(\d+(\.\d*)?|\.\d+)([eE][+-]?\d+)?$`,
matched after Python `str.strip()`.  We translate the regex into a
deterministic scanner over the character list (the regex is
deterministic: each alternative is selected by the first character, and
the greedy `\d*`/`\d+` scans are exactly `List.span Char.isDigit`).
-/

/-- Whitespace characters removed by Python `str.strip()` (ASCII part;
the inputs of this app are ASCII). -/
def isPySpace (c : Char) : Bool :=
  c = ' ' || c = '\t' || c = '\n' || c = '\r' || c = '\x0b' || c = '\x0c'

/-- Python `str.strip()` on a character list. -/
def pyStripChars (cs : List Char) : List Char :=
  ((cs.dropWhile isPySpace).reverse.dropWhile isPySpace).reverse

/-- Python `str.strip()`. -/
def pyStrip (s : String) : String :=
  String.mk (pyStripChars s.data)

/-- Consume the optional sign `[+-]?`; return (is-negative, rest). -/
def splitSign : List Char → Bool × List Char
  | [] => (false, [])
  | c :: r =>
    if c = '-' then (true, r)
    else if c = '+' then (false, r)
    else (false, c :: r)

/-- Shape-only match of the mantissa alternative `(\d+(\.\d*)?|\.\d+)`:
`some rest` when a prefix matches, leaving `rest`. -/
def matchMantissa (cs : List Char) : Option (List Char) :=
  if (cs.span Char.isDigit).1.isEmpty then
    match (cs.span Char.isDigit).2 with
    | c :: r2 =>
      if c = '.' then
        if (r2.span Char.isDigit).1.isEmpty then none
        else some (r2.span Char.isDigit).2
      else none
    | [] => none
  else
    match (cs.span Char.isDigit).2 with
    | c :: r2 =>
      if c = '.' then some (r2.span Char.isDigit).2
      else some (c :: r2)
    | [] => some []

/-- Shape-only match of the tail `([eE][+-]?\d+)?$`. -/
def matchExp (cs : List Char) : Bool :=
  match cs with
  | [] => true
  | c :: r =>
    if c = 'e' || c = 'E' then
      !((splitSign r).2.span Char.isDigit).1.isEmpty
        && ((splitSign r).2.span Char.isDigit).2.isEmpty
    else false

/-- Model of `_num_pattern.match` of web.py on a character list: the anchored
regex `^[+-]?(\d+(\.\d*)?|\.\d+)([eE][+-]?\d+)?$`. -/
def numPatternChars (cs : List Char) : Bool :=
  match matchMantissa (splitSign cs).2 with
  | none => false
  | some rest => matchExp rest

/-- Model of `_num_pattern.match` of web.py on a string. -/
def numPattern (s : String) : Bool :=
  numPatternChars s.data

/-- Value of a digit string, most significant first. -/
def digitsToNat (ds : List Char) : Nat :=
  ds.foldl (fun acc c => 10 * acc + (c.toNat - '0'.toNat)) 0

/-- Semantic scan of the mantissa: `some ((m, k), rest)` where the
matched text denotes `m / 10 ^ k`.  Same branching as `matchMantissa`. -/
def scanMantissa (cs : List Char) : Option ((Nat × Nat) × List Char) :=
  if (cs.span Char.isDigit).1.isEmpty then
    match (cs.span Char.isDigit).2 with
    | c :: r2 =>
      if c = '.' then
        if (r2.span Char.isDigit).1.isEmpty then none
        else some ((digitsToNat (r2.span Char.isDigit).1,
                    (r2.span Char.isDigit).1.length), (r2.span Char.isDigit).2)
      else none
    | [] => none
  else
    match (cs.span Char.isDigit).2 with
    | c :: r2 =>
      if c = '.' then
        some ((digitsToNat (cs.span Char.isDigit).1 * 10 ^ (r2.span Char.isDigit).1.length
                + digitsToNat (r2.span Char.isDigit).1,
               (r2.span Char.isDigit).1.length), (r2.span Char.isDigit).2)
      else some ((digitsToNat (cs.span Char.isDigit).1, 0), c :: r2)
    | [] => some ((digitsToNat (cs.span Char.isDigit).1, 0), [])

/-- Integer with sign. -/
def signInt (neg : Bool) (n : Nat) : Int :=
  if neg then -(n : Int) else (n : Int)

/-- Semantic scan of the exponent tail: the denoted exponent, `none`
when the tail does not match `([eE][+-]?\d+)?$`. -/
def scanExp (cs : List Char) : Option Int :=
  match cs with
  | [] => some 0
  | c :: r =>
    if c = 'e' || c = 'E' then
      if ((splitSign r).2.span Char.isDigit).1.isEmpty then none
      else if ((splitSign r).2.span Char.isDigit).2.isEmpty then
        some (signInt (splitSign r).1 (digitsToNat ((splitSign r).2.span Char.isDigit).1))
      else none
    else none

/-- The value `m / 10 ^ k * 10 ^ e` as an exact rational. -/
def applyExp (m k : Nat) (e : Int) : ℚ :=
  if (k : Int) ≤ e then mkRat ((m * 10 ^ (e - (k : Int)).toNat : Nat) : Int) 1
  else mkRat ((m : Nat) : Int) (10 ^ (((k : Int) - e).toNat))

/-- Negate when the sign was `-`. -/
def signApply (neg : Bool) (q : ℚ) : ℚ :=
  if neg then -q else q

/-- Exact value of a numeric literal: Python `float(t)` (modelled
exactly over ℚ) on a character list, defined for every string matching
the numeric grammar. -/
def parseNumChars (cs : List Char) : Option ℚ :=
  match scanMantissa (splitSign cs).2 with
  | none => none
  | some mk =>
    match scanExp mk.2 with
    | none => none
    | some e => some (signApply (splitSign cs).1 (applyExp mk.1.1 mk.1.2 e))

/-- Exact value of a numeric literal string (Python `float(t)`). -/
def parseNum (s : String) : Option ℚ :=
  parseNumChars s.data

/-- The two warning messages `_to_float` can emit
(`st.warning(f"... invalid number ...")` vs the defensive
`st.warning(f"... cannot parse ...")` inside the `try`). -/
inductive WarnKind
  | invalidNumber
  | cannotParse
  deriving DecidableEq

/-- One `st.warning` emission: its kind and the interpolated data
(feature name, rejected text, substituted default). -/
structure Warning where
  kind : WarnKind
  name : String
  text : String
  defaultVal : ℚ
  deriving DecidableEq

/-- Model of `_to_float(text, default, name)` of web.py: returns the parsed
value together with the list of warnings emitted by the call. -/
def _to_float (text : String) (default : ℚ) (name : String) : ℚ × List Warning :=
  if numPattern (pyStrip text) then
    match parseNum (pyStrip text) with
    | some v => (v, [])
    | none => (default, [⟨WarnKind.cannotParse, name, pyStrip text, default⟩])
  else
    (default, [⟨WarnKind.invalidNumber, name, pyStrip text, default⟩])

/-! ### Feature Catalog and Name Normalizer (web.py lines 72-100)

Python floats in `DEFAULTS` are decimal literals; we write them as the
exact rational `mkRat` of their digits (e.g. `122.5` is `mkRat 1225 10`).
-/

/-- COLUMN_MAPPING of web.py: raw model feature identifier to canonical
display name. -/
def COLUMN_MAPPING : List (String × String) :=
  [("SB", "SBP"), ("DB", "DBP"), ("T", "Temp"),
   ("score1", "APS III"), ("score2", "WBC"), ("score6", "PLT"),
   ("score7", "AG"), ("score8", "HCO₃⁻"), ("SC1", "RDW"),
   ("Na", "Na⁺"), ("BUN", "BUN"), ("Cre", "Creatinine"), ("Lac", "Lac")]

/-- Modelled from the spec: the raw feature list is loaded from the
persisted artifact `result/LGBM-dart_features.pkl`, which is not in the
repository.  Per the spec, the model declares thirteen raw identifiers,
one per Feature Catalog entry; the order follows the spec's scenario-A
enumeration, mapped back through the fixed `COLUMN_MAPPING`. -/
def feature_list : List String :=
  ["SB", "DB", "score1", "score2", "score6", "score7", "score8",
   "SC1", "Na", "BUN", "T", "Lac", "Cre"]

/-- The Name Normalizer `[COLUMN_MAPPING.get(f, f) for f in fl]` of
web.py line 78, for an arbitrary raw identifier list `fl`.  It is a pure
function (no side effects) and total (no error cases). -/
def std_feature_list_of (fl : List String) : List String :=
  fl.map (fun f => (COLUMN_MAPPING.lookup f).getD f)

/-- Definition `std_feature_list` of web.py: the normalizer applied to the loaded
feature list. -/
def std_feature_list : List String :=
  std_feature_list_of feature_list

/-- DEFAULTS dict of web.py (lines 81-85), values as exact rationals. -/
def DEFAULTS : List (String × ℚ) :=
  [("SBP", mkRat 1225 10), ("DBP", mkRat 848 10), ("APS III", 29),
   ("WBC", mkRat 79 10), ("PLT", mkRat 1654 10), ("AG", 9),
   ("HCO₃⁻", 21), ("RDW", mkRat 153 10), ("Na⁺", mkRat 1373 10),
   ("BUN", mkRat 147 10), ("Temp", mkRat 370 10), ("Lac", mkRat 9 10),
   ("Creatinine", mkRat 9 10)]

/-- LABELS dict of web.py (lines 86-100). -/
def LABELS : List (String × String) :=
  [("SBP", "Systolic Blood Pressure (SBP) – mmHg"),
   ("DBP", "Diastolic Blood Pressure (DBP) – mmHg"),
   ("APS III", "Acute Physiology Score III (APSIII)"),
   ("WBC", "White Blood Cell Count (WBC) – 10³/µL"),
   ("AG", "Anion Gap (AG) – mmol/L"),
   ("HCO₃⁻", "Bicarbonate (HCO₃⁻) – mmol/L"),
   ("Na⁺", "Sodium (Na⁺) – mmol/L"),
   ("BUN", "Blood Urea Nitrogen (BUN) – mg/dL"),
   ("Temp", "Body Temperature (Temp) – °C"),
   ("RDW", "Red Cell Distribution Width (RDW) – fL"),
   ("PLT", "Platelet Count (PLT) – 10³/µL"),
   ("Lac", "Lactate (Lac) – mmol/L"),
   ("Creatinine", "Creatinine (Cre) – mg/dL")]

/-- Lookup `DEFAULTS.get(feat, 0)` of web.py. -/
def default_of (feat : String) : ℚ :=
  (DEFAULTS.lookup feat).getD 0

/-- Python `str()` applied to each default literal of `DEFAULTS`
(`str(DEFAULTS.get(feat, 0))` in `user_input_features`): `str` of each
numeric literal reproduces the literal's source text (`str(122.5)` is
`"122.5"`, `str(29)` is `"29"`). -/
def DEFAULT_STRS : List (String × String) :=
  [("SBP", "122.5"), ("DBP", "84.8"), ("APS III", "29"), ("WBC", "7.9"),
   ("PLT", "165.4"), ("AG", "9"), ("HCO₃⁻", "21"), ("RDW", "15.3"),
   ("Na⁺", "137.3"), ("BUN", "14.7"), ("Temp", "37.0"), ("Lac", "0.9"),
   ("Creatinine", "0.9")]

/-- The text initially held (and re-parsed on each run) by the input
widget of feature `feat`: `str(DEFAULTS.get(feat, 0))`. -/
def default_text (feat : String) : String :=
  (DEFAULT_STRS.lookup feat).getD "0"

/-- Model of `user_input_features` of web.py (lines 121-135), value part: one
text field per entry of `std_feature_list`, each parsed by `_to_float`
with that feature's default; `texts feat` is the raw text currently in
the widget of feature `feat`. -/
def user_input_features (texts : String → String) : List (String × ℚ) :=
  std_feature_list.map
    (fun feat => (feat, (_to_float (texts feat) (default_of feat) feat).1))

/-- Column labels of the assembled frame (`list(X.columns)`). -/
def feature_labels (X : List (String × ℚ)) : List String :=
  X.map Prod.fst

/-- Row of values of the assembled frame (`X.iloc[0].values`). -/
def feature_values (X : List (String × ℚ)) : List ℚ :=
  X.map Prod.snd

/-! ### Prediction Service precondition (web.py lines 274-282) -/

/-- The list `missing = [c for c in std_feature_list if c not in input_df.columns]`
of web.py line 275, generalized over the required list and the assembled
columns. -/
def missing_of (required cols : List String) : List String :=
  required.filter (fun c => !(cols.contains c))

/-- Outcome of the main block: either the request is aborted with
`st.error` naming the missing features, or prediction proceeds. -/
inductive RequestOutcome
  | aborted (missing : List String)
  | predicted
  deriving DecidableEq

/-- The `if missing: st.error(...) else: ... predict` branch of web.py
lines 276-282. -/
def predictionGate (required cols : List String) : RequestOutcome :=
  if (missing_of required cols).isEmpty then RequestOutcome.predicted
  else RequestOutcome.aborted (missing_of required cols)

/-! ### Explanation Service: SHAP return shapes (web.py lines 155-162) -/

/-- The two return shapes of `explainer.shap_values(X)`: a Python list
of per-class matrices (rows are samples), or a single matrix already
isolated to the positive class. -/
inductive ShapValues
  | classList (ms : List (List (List ℚ)))
  | singleMatrix (m : List (List ℚ))
  deriving DecidableEq

/-- The shape dispatch of web.py lines 157-162: on a list,
`sv_vec = shap_values[-1][0]` and `base_val = ravel(expected_value)[-1]`;
on a single matrix, `sv_vec = shap_values[0]` and
`base_val = ravel(expected_value)[0]`.  Out-of-range indexing (an
`IndexError` in Python) is modelled as `none`. -/
def selectPositive : ShapValues → List ℚ → Option (List ℚ × ℚ)
  | ShapValues.classList ms, ev => do
      let lastM ← ms.getLast?
      let row ← lastM.head?
      let b ← ev.getLast?
      pure (row, b)
  | ShapValues.singleMatrix m, ev => do
      let row ← m.head?
      let b ← ev.head?
      pure (row, b)

/-! ### Explanation Service: force-plot call retry (web.py lines 240-261) -/

/-- The two call forms for `shap.force_plot`: with the `ax` keyword, or
the alternate form without it. -/
inductive CallForm
  | withAx
  | withoutAx
  deriving DecidableEq

/-- Outcome of one `shap.force_plot` call: success, a `TypeError`
(interface mismatch), or any other exception. -/
inductive PlotOutcome
  | ok
  | typeError
  | otherError
  deriving DecidableEq

/-- The `try: shap.force_plot(..., ax=ax_shap) except TypeError: ...`
block of web.py lines 241-261, parameterized by the behaviour `call` of
the installed shap library on each call form.  Returns the outcome that
escapes the block together with the sequence of calls attempted.  Only
`TypeError` from the first call triggers the alternate call; an
exception from the second call propagates. -/
def renderForcePlot (call : CallForm → PlotOutcome) : PlotOutcome × List CallForm :=
  match call CallForm.withAx with
  | PlotOutcome.ok => (PlotOutcome.ok, [CallForm.withAx])
  | PlotOutcome.typeError => (call CallForm.withoutAx, [CallForm.withAx, CallForm.withoutAx])
  | PlotOutcome.otherError => (PlotOutcome.otherError, [CallForm.withAx])

/-! ### Helper lemmas about the numeric scanner -/

/-- A span by `Char.isDigit` decomposes the list. -/
theorem span_digits_append (l : List Char) :
    (l.span Char.isDigit).1 ++ (l.span Char.isDigit).2 = l := by
  simp [List.span_eq_take_drop, List.takeWhile_append_dropWhile]

/-- Members of the first span component are digits. -/
theorem mem_span_fst_isDigit {l : List Char} {c : Char}
    (h : c ∈ (l.span Char.isDigit).1) : c.isDigit = true := by
  rw [List.span_eq_take_drop] at h
  exact List.mem_takeWhile_imp h

/-- The shape-only and semantic mantissa scanners succeed together and
leave the same remainder. -/
theorem matchMantissa_eq (cs : List Char) :
    matchMantissa cs = (scanMantissa cs).map Prod.snd := by
  unfold matchMantissa scanMantissa
  by_cases h1 : (cs.span Char.isDigit).1.isEmpty = true
  · simp only [if_pos h1]
    cases h2 : (cs.span Char.isDigit).2 with
    | nil => rfl
    | cons c r2 =>
      by_cases h3 : c = '.'
      · simp only [if_pos h3]
        by_cases h4 : (r2.span Char.isDigit).1.isEmpty = true
        · simp only [if_pos h4]
          rfl
        · simp only [if_neg h4]
          rfl
      · simp only [if_neg h3]
        rfl
  · simp only [if_neg h1]
    cases h2 : (cs.span Char.isDigit).2 with
    | nil => rfl
    | cons c r2 =>
      by_cases h3 : c = '.'
      · simp only [if_pos h3]
        rfl
      · simp only [if_neg h3]
        rfl

/-- The shape-only and semantic exponent scanners succeed together. -/
theorem matchExp_eq (cs : List Char) :
    matchExp cs = (scanExp cs).isSome := by
  unfold matchExp scanExp
  cases cs with
  | nil => rfl
  | cons c r =>
    by_cases h1 : (c = 'e' || c = 'E') = true
    · simp only [if_pos h1]
      by_cases h2 : ((splitSign r).2.span Char.isDigit).1.isEmpty = true
      · rw [h2]
        rfl
      · have h2' : ((splitSign r).2.span Char.isDigit).1.isEmpty = false :=
          Bool.eq_false_iff.mpr h2
        rw [h2']
        by_cases h3 : ((splitSign r).2.span Char.isDigit).2.isEmpty = true
        · rw [h3]
          rfl
        · have h3' : ((splitSign r).2.span Char.isDigit).2.isEmpty = false :=
            Bool.eq_false_iff.mpr h3
          rw [h3']
          rfl
    · simp only [if_neg h1]
      rfl

/-- Every string accepted by the regex parses to a value: the regex
match guarantees `float(t)` succeeds. -/
theorem parse_isSome_of_pattern (cs : List Char)
    (h : numPatternChars cs = true) : (parseNumChars cs).isSome = true := by
  unfold numPatternChars at h
  unfold parseNumChars
  rcases hm : scanMantissa (splitSign cs).2 with _ | mk
  · rw [matchMantissa_eq, hm] at h
    simp at h
  · rw [matchMantissa_eq, hm] at h
    simp only [Option.map_some'] at h
    rw [matchExp_eq] at h
    rcases he : scanExp mk.2 with _ | e
    · rw [he] at h
      simp at h
    · simp [hm, he]

/-- A digit is not Python whitespace. -/
theorem isDigit_not_space {c : Char} (hd : c.isDigit = true) :
    isPySpace c = false := by
  cases hs : isPySpace c
  · rfl
  · exfalso
    unfold isPySpace at hs
    simp only [Bool.or_eq_true, decide_eq_true_eq] at hs
    rcases hs with ((((rfl | rfl) | rfl) | rfl) | rfl) | rfl <;>
      exact absurd hd (by decide)

/-- Any member of a list is the consumed sign or a member of the
remainder after `splitSign`. -/
theorem mem_splitSign {cs : List Char} {c : Char} (h : c ∈ cs) :
    c = '-' ∨ c = '+' ∨ c ∈ (splitSign cs).2 := by
  cases cs with
  | nil => cases h
  | cons a r =>
    unfold splitSign
    by_cases h1 : a = '-'
    · simp only [if_pos h1]
      rcases List.mem_cons.mp h with h2 | h2
      · exact Or.inl (h2.trans h1)
      · exact Or.inr (Or.inr h2)
    · by_cases h2 : a = '+'
      · simp only [if_neg h1, if_pos h2]
        rcases List.mem_cons.mp h with h3 | h3
        · exact Or.inr (Or.inl (h3.trans h2))
        · exact Or.inr (Or.inr h3)
      · simp only [if_neg h1, if_neg h2]
        exact Or.inr (Or.inr h)

/-- Characters consumed by the mantissa are digits or the dot. -/
theorem mem_matchMantissa {xs rest : List Char}
    (hm : matchMantissa xs = some rest) :
    ∀ c ∈ xs, c.isDigit = true ∨ c = '.' ∨ c ∈ rest := by
  intro c hc
  have hc' : c ∈ (xs.span Char.isDigit).1 ++ (xs.span Char.isDigit).2 := by
    rw [span_digits_append]
    exact hc
  rcases List.mem_append.mp hc' with hL | hR
  · exact Or.inl (mem_span_fst_isDigit hL)
  · unfold matchMantissa at hm
    split at hm
    · split at hm
      · rename_i c0 r2 heq
        split at hm
        · rename_i h3
          split at hm
          · exact absurd hm (by simp)
          · have hrest : (r2.span Char.isDigit).2 = rest := Option.some.inj hm
            rw [heq] at hR
            rcases List.mem_cons.mp hR with rfl | hr2
            · exact Or.inr (Or.inl h3)
            · have hr2' : c ∈ (r2.span Char.isDigit).1 ++ (r2.span Char.isDigit).2 := by
                rw [span_digits_append]
                exact hr2
              rcases List.mem_append.mp hr2' with hA | hB
              · exact Or.inl (mem_span_fst_isDigit hA)
              · rw [hrest] at hB
                exact Or.inr (Or.inr hB)
        · exact absurd hm (by simp)
      · exact absurd hm (by simp)
    · split at hm
      · rename_i c0 r2 heq
        split at hm
        · rename_i h3
          have hrest : (r2.span Char.isDigit).2 = rest := Option.some.inj hm
          rw [heq] at hR
          rcases List.mem_cons.mp hR with rfl | hr2
          · exact Or.inr (Or.inl h3)
          · have hr2' : c ∈ (r2.span Char.isDigit).1 ++ (r2.span Char.isDigit).2 := by
              rw [span_digits_append]
              exact hr2
            rcases List.mem_append.mp hr2' with hA | hB
            · exact Or.inl (mem_span_fst_isDigit hA)
            · rw [hrest] at hB
              exact Or.inr (Or.inr hB)
        · have hrest : c0 :: r2 = rest := Option.some.inj hm
          rw [heq, hrest] at hR
          exact Or.inr (Or.inr hR)
      · rename_i heq
        rw [heq] at hR
        cases hR

/-- Characters consumed by the exponent tail are digits, `e`/`E` or a
sign. -/
theorem mem_matchExp {rest : List Char} (he : matchExp rest = true) :
    ∀ c ∈ rest, c.isDigit = true ∨ c = 'e' ∨ c = 'E' ∨ c = '+' ∨ c = '-' := by
  intro c hc
  cases rest with
  | nil => cases hc
  | cons c0 r =>
    simp only [matchExp] at he
    split at he
    · rename_i h1
      simp only [Bool.and_eq_true] at he
      have hnil : ((splitSign r).2.span Char.isDigit).2 = [] :=
        List.isEmpty_iff.mp he.2
      simp only [Bool.or_eq_true, decide_eq_true_eq] at h1
      rcases List.mem_cons.mp hc with rfl | hr
      · rcases h1 with h | h
        · exact Or.inr (Or.inl h)
        · exact Or.inr (Or.inr (Or.inl h))
      · rcases mem_splitSign hr with h | h | h
        · exact Or.inr (Or.inr (Or.inr (Or.inr h)))
        · exact Or.inr (Or.inr (Or.inr (Or.inl h)))
        · have h' : c ∈ ((splitSign r).2.span Char.isDigit).1
              ++ ((splitSign r).2.span Char.isDigit).2 := by
            rw [span_digits_append]
            exact h
          rcases List.mem_append.mp h' with hA | hB
          · exact Or.inl (mem_span_fst_isDigit hA)
          · rw [hnil] at hB
            cases hB
    · cases he

/-- No character of a regex-matching string is whitespace. -/
theorem pattern_no_space {cs : List Char} (h : numPatternChars cs = true) :
    ∀ c ∈ cs, isPySpace c = false := by
  intro c hc
  unfold numPatternChars at h
  split at h
  · cases h
  · rename_i rest heq
    rcases mem_splitSign hc with h1 | h1 | h1
    · rw [h1]
      decide
    · rw [h1]
      decide
    · rcases mem_matchMantissa heq c h1 with h2 | h2 | h2
      · exact isDigit_not_space h2
      · rw [h2]
        decide
      · rcases mem_matchExp h c h2 with h3 | h3 | h3 | h3 | h3
        · exact isDigit_not_space h3
        · rw [h3]
          decide
        · rw [h3]
          decide
        · rw [h3]
          decide
        · rw [h3]
          decide

/-- A `dropWhile` is the identity when no element satisfies the predicate. -/
theorem dropWhile_eq_self_of {p : Char → Bool} {l : List Char}
    (h : ∀ c ∈ l, p c = false) : l.dropWhile p = l := by
  cases l with
  | nil => rfl
  | cons a t =>
    rw [List.dropWhile_cons, h a (List.mem_cons_self a t)]
    simp

/-- Python `str.strip()` is the identity on strings with no outer whitespace
anywhere. -/
theorem pyStripChars_eq_self {cs : List Char}
    (h : ∀ c ∈ cs, isPySpace c = false) : pyStripChars cs = cs := by
  unfold pyStripChars
  rw [dropWhile_eq_self_of h,
    dropWhile_eq_self_of (fun c hc => h c (List.mem_reverse.mp hc)),
    List.reverse_reverse]

/-- Python `str.strip()` is the identity on regex-matching strings. -/
theorem pyStrip_eq_self {s : String} (h : numPattern s = true) :
    pyStrip s = s := by
  unfold pyStrip
  rw [pyStripChars_eq_self (pattern_no_space h)]

/-- The missing-feature list is empty exactly when every required
feature is among the assembled columns. -/
theorem missing_of_eq_nil_iff (required cols : List String) :
    missing_of required cols = [] ↔ ∀ c ∈ required, c ∈ cols := by
  unfold missing_of
  rw [List.filter_eq_nil_iff]
  constructor
  · intro h c hc
    simpa using h c hc
  · intro h c hc
    simpa using h c hc

/-! ### Claims -/

/-- C1 (amended): for every input string that, after stripping
surrounding whitespace, does not match the numeric-literal grammar
(including the empty string), `_to_float` returns the feature's default
value, emits exactly one warning naming the feature and the rejected
(stripped) text, and raises no exception (it is a total function). -/
theorem claim_C1 (s : String) (d : ℚ) (n : String)
    (h : numPattern (pyStrip s) = false) :
    _to_float s d n = (d, [⟨WarnKind.invalidNumber, n, pyStrip s, d⟩]) := by
  unfold _to_float
  rw [h]
  rfl

/-- C1 witness: the malformed input `"abc"` is defaulted with one
warning naming the feature and the text. -/
theorem claim_C1_witness :
    numPattern (pyStrip "abc") = false ∧
    _to_float "abc" (mkRat 1225 10) "SBP"
      = (mkRat 1225 10, [⟨WarnKind.invalidNumber, "SBP", pyStrip "abc", mkRat 1225 10⟩]) :=
  ⟨by decide, claim_C1 "abc" (mkRat 1225 10) "SBP" (by decide)⟩

/-- C1 counterexample: the claim as stated (quantifying over raw input
strings that fail the regex) is false: `" 1 "` does not match
`_num_pattern`, yet `_to_float` strips it, parses `1` and emits no
warning instead of substituting the default `122.5`. -/
theorem claim_C1_counterexample :
    numPattern " 1 " = false ∧
    _to_float " 1 " (mkRat 1225 10) "SBP" = (1, []) ∧
    (1 : ℚ) ≠ mkRat 1225 10 := by
  refine ⟨by decide, by decide, by decide⟩

/-- C2: every input string matching the numeric-literal grammar parses
(float conversion succeeds) and `_to_float` returns exactly the denoted
value with no warning and no default substitution. -/
theorem claim_C2 (s : String) (d : ℚ) (n : String)
    (h : numPattern s = true) :
    (parseNum s).isSome = true ∧
    _to_float s d n = ((parseNum s).getD d, []) := by
  have hs : pyStrip s = s := pyStrip_eq_self h
  have hp : (parseNum s).isSome = true := parse_isSome_of_pattern s.data h
  refine ⟨hp, ?_⟩
  unfold _to_float
  rw [hs, h]
  rcases hq : parseNum s with _ | q
  · rw [hq] at hp
    cases hp
  · rfl

/-- C2 witness: `"1e2"` parses to exactly `100` and does not fall back
to the default. -/
theorem claim_C2_witness :
    numPattern "1e2" = true ∧
    (parseNum "1e2").isSome = true ∧
    _to_float "1e2" (mkRat 1225 10) "SBP" = (100, []) := by
  have h := claim_C2 "1e2" (mkRat 1225 10) "SBP" (by decide)
  exact ⟨by decide, h.1, h.2.trans (by decide)⟩

/-- C3: the Name Normalizer preserves length and order for every input
list, maps each element through `COLUMN_MAPPING` when a mapping exists
and passes it through unchanged otherwise; it is a pure total function
(no side effects, no error cases). -/
theorem claim_C3 (fl : List String) :
    (std_feature_list_of fl).length = fl.length ∧
    (∀ i : Nat, (std_feature_list_of fl)[i]?
      = (fl[i]?).map (fun f => (COLUMN_MAPPING.lookup f).getD f)) ∧
    (∀ (i : Nat) (f : String), fl[i]? = some f → COLUMN_MAPPING.lookup f = none →
      (std_feature_list_of fl)[i]? = some f) := by
  refine ⟨List.length_map fl _, fun i => List.getElem?_map _ fl i, ?_⟩
  intro i f hf hnone
  unfold std_feature_list_of
  rw [List.getElem?_map, hf]
  simp [hnone]

/-- C3 witness: on the two-element list `["SB", "unknown"]` the
normalizer keeps length `2`, maps `"SB"` to `"SBP"` and passes the
unmapped `"unknown"` through unchanged at its position. -/
theorem claim_C3_witness :
    (std_feature_list_of ["SB", "unknown"]).length = 2 ∧
    (std_feature_list_of ["SB", "unknown"])[0]? = some "SBP" ∧
    (std_feature_list_of ["SB", "unknown"])[1]? = some "unknown" := by
  have h := claim_C3 ["SB", "unknown"]
  exact ⟨h.1.trans (by decide), (h.2.1 0).trans (by decide),
    h.2.2 1 "unknown" (by decide) (by decide)⟩

/-- C4: for a two-class model, both return shapes of the attribution
engine lead to the positive-class contribution row and the
positive-class baseline: on the per-class list `[negative, positive]`
with expected values `[negBase, posBase]` the code picks
`shap_values[-1][0]` and `expected_value[-1]`; on a single matrix
already isolated to the positive class with its scalar expected value it
picks `shap_values[0]` and `expected_value[0]`. -/
theorem claim_C4 (negRow posRow : List ℚ) (negBase posBase : ℚ) :
    selectPositive (ShapValues.classList [[negRow], [posRow]]) [negBase, posBase]
      = some (posRow, posBase) ∧
    selectPositive (ShapValues.singleMatrix [posRow]) [posBase]
      = some (posRow, posBase) := by
  constructor
  · rfl
  · rfl

/-- C5 counterexample: the precondition check is not set equality: with
required features `["a"]` and assembled columns `["a", "b"]` the key
sets differ (`"b"` is an extra key), yet the gate proceeds to
prediction. -/
theorem claim_C5_counterexample :
    predictionGate ["a"] ["a", "b"] = RequestOutcome.predicted ∧
    "b" ∈ (["a", "b"] : List String) ∧
    "b" ∉ (["a"] : List String) := by
  refine ⟨by decide, by decide, by decide⟩

/-- C5 (amended): before prediction the service verifies that every
canonical feature name required by the model occurs among the assembled
FeatureVector's keys (a one-sided inclusion check — extra keys are not
rejected); the gate passes exactly when no required key is missing, and
any missing key aborts the request with an error naming the missing
features, with no prediction performed and no silent defaulting. -/
theorem claim_C5 (required cols : List String) :
    (predictionGate required cols = RequestOutcome.predicted ↔
      ∀ c ∈ required, c ∈ cols) ∧
    (∀ c ∈ required, c ∉ cols →
      predictionGate required cols
        = RequestOutcome.aborted (missing_of required cols) ∧
      missing_of required cols ≠ []) := by
  constructor
  · unfold predictionGate
    by_cases h : (missing_of required cols).isEmpty = true
    · rw [if_pos h]
      simp only [true_iff]
      exact (missing_of_eq_nil_iff required cols).mp (List.isEmpty_iff.mp h)
    · rw [if_neg h]
      constructor
      · intro habs
        cases habs
      · intro hall
        exact absurd (by rw [(missing_of_eq_nil_iff required cols).mpr hall]; rfl) h
  · intro c hc hnc
    have hne : missing_of required cols ≠ [] := by
      intro hnil
      exact hnc ((missing_of_eq_nil_iff required cols).mp hnil c hc)
    have hemp : (missing_of required cols).isEmpty = false := by
      cases hval : (missing_of required cols).isEmpty
      · rfl
      · exact absurd (List.isEmpty_iff.mp hval) hne
    refine ⟨?_, hne⟩
    unfold predictionGate
    rw [hemp]
    rfl

/-- C5 witness: with required list `["a"]` and no assembled columns the
request is aborted naming the missing feature, and no prediction is
performed. -/
theorem claim_C5_witness :
    predictionGate ["a"] ([] : List String) = RequestOutcome.aborted ["a"] := by
  have h := (claim_C5 ["a"] []).2 "a" (by decide) (by decide)
  exact h.1.trans (by decide)

/-- C6: for any attribution engine satisfying its contract (one
contribution per feature) and any entered texts, the contribution
sequence, the label sequence and the FeatureVector have equal lengths;
on the documented defaults the common length is exactly 13. -/
theorem claim_C6 (engine : List ℚ → List ℚ)
    (hengine : ∀ x, (engine x).length = x.length)
    (texts : String → String) :
    (engine (feature_values (user_input_features texts))).length
      = (feature_labels (user_input_features texts)).length ∧
    (feature_labels (user_input_features texts)).length
      = (user_input_features texts).length ∧
    (user_input_features default_text).length = 13 := by
  refine ⟨?_, List.length_map _ _, by decide⟩
  rw [hengine]
  unfold feature_values feature_labels
  rw [List.length_map, List.length_map]

/-- C6 witness: with the identity engine and the default inputs, the
explanation has 13 contributions aligned with 13 labels for the
13-entry FeatureVector. -/
theorem claim_C6_witness :
    (user_input_features default_text).length = 13 ∧
    (feature_labels (user_input_features default_text)).length = 13 ∧
    ((fun x : List ℚ => x) (feature_values (user_input_features default_text))).length = 13 := by
  have h := claim_C6 (fun x => x) (fun _ => rfl) default_text
  exact ⟨h.2.2, h.2.1.trans h.2.2, h.1.trans (h.2.1.trans h.2.2)⟩

/-- C7: parsing the literal string of each catalog default
(`_to_float(str(default), default, name)`) returns exactly that default
with no warning (round-trip identity), for every FeatureSpec entry. -/
theorem claim_C7 :
    ∀ p ∈ DEFAULT_STRS,
      _to_float p.2 (default_of p.1) p.1 = (default_of p.1, []) := by
  decide

/-- C7 witness: the SBP default `122.5` round-trips through its literal
string. -/
theorem claim_C7_witness :
    _to_float "122.5" (default_of "SBP") "SBP" = (default_of "SBP", []) :=
  claim_C7 ("SBP", "122.5") (by decide)

/-- C8: when the first force-plot call form fails with an interface
mismatch (`TypeError`), the service retries exactly once with the
alternate call form, and the escaping outcome is exactly the second
call's outcome — fatal only if both call forms fail. -/
theorem claim_C8 (call : CallForm → PlotOutcome)
    (h : call CallForm.withAx = PlotOutcome.typeError) :
    (renderForcePlot call).2 = [CallForm.withAx, CallForm.withoutAx] ∧
    (renderForcePlot call).1 = call CallForm.withoutAx ∧
    ((renderForcePlot call).1 = PlotOutcome.ok ↔
      call CallForm.withoutAx = PlotOutcome.ok) := by
  unfold renderForcePlot
  rw [h]
  exact ⟨rfl, rfl, Iff.rfl⟩

/-- C8 witness: a library whose `ax` form raises `TypeError` and whose
alternate form succeeds leads to exactly two attempts and a non-fatal
outcome. -/
theorem claim_C8_witness :
    (renderForcePlot (fun f => match f with
      | CallForm.withAx => PlotOutcome.typeError
      | CallForm.withoutAx => PlotOutcome.ok)).2
        = [CallForm.withAx, CallForm.withoutAx] ∧
    (renderForcePlot (fun f => match f with
      | CallForm.withAx => PlotOutcome.typeError
      | CallForm.withoutAx => PlotOutcome.ok)).1 = PlotOutcome.ok := by
  have h := claim_C8 (fun f => match f with
    | CallForm.withAx => PlotOutcome.typeError
    | CallForm.withoutAx => PlotOutcome.ok) rfl
  exact ⟨h.1, h.2.1⟩

/-- C9 counterexample: the claim of exactly twelve fields/measurements
is false on the code: the Feature Catalog has 13 entries, the label
table has 13 entries, and the rendered input surface and assembled
FeatureVector have 13 fields, not 12. -/
theorem claim_C9_counterexample :
    DEFAULTS.length = 13 ∧ LABELS.length = 13 ∧
    (user_input_features default_text).length ≠ 12 := by
  refine ⟨by decide, by decide, by decide⟩

/-- C9 (amended): the input surface presents exactly thirteen labeled
fields and the pipeline's feature vector is an ordered set of exactly
thirteen clinical measurements, one per Feature Catalog entry. -/
theorem claim_C9 (texts : String → String) :
    DEFAULTS.length = 13 ∧ LABELS.length = 13 ∧
    std_feature_list.length = 13 ∧
    (user_input_features texts).length = 13 := by
  refine ⟨by decide, by decide, by decide, ?_⟩
  unfold user_input_features
  rw [List.length_map]
  decide

/-- C10: every string matching `_num_pattern` (the match is done after
stripping) is convertible by `float`, so the inner exception branch of
`_to_float` is unreachable: no warning of the inner kind
(`cannotParse`) is ever emitted, on any input. -/
theorem claim_C10 :
    (∀ t : String, numPattern t = true → (parseNum t).isSome = true) ∧
    (∀ (s : String) (d : ℚ) (n : String),
      ∀ w ∈ (_to_float s d n).2, w.kind = WarnKind.invalidNumber) := by
  constructor
  · intro t ht
    exact parse_isSome_of_pattern t.data ht
  · intro s d n w hw
    unfold _to_float at hw
    cases hpat : numPattern (pyStrip s)
    · rw [hpat] at hw
      simp only [Bool.false_eq_true, if_false, List.mem_singleton] at hw
      rw [hw]
    · rw [hpat] at hw
      have hp : (parseNum (pyStrip s)).isSome = true :=
        parse_isSome_of_pattern (pyStrip s).data hpat
      rcases hq : parseNum (pyStrip s) with _ | q
      · rw [hq] at hp
        cases hp
      · rw [hq] at hw
        simp at hw

/-- C10 witness: `"1e2"` matches the pattern and `float` conversion
succeeds on it. -/
theorem claim_C10_witness :
    numPattern "1e2" = true ∧ (parseNum "1e2").isSome = true :=
  ⟨by decide, claim_C10.1 "1e2" (by decide)⟩

end Web
